import Mathlib

/-!
Verification of the authorization-decision engine in
`net/http/authz/authorizer.go` (package `authz`).

The Go code is shallowly embedded: Go structs become Lean structures,
byte slices become `String`, Go maps become functions with a default
(`nil`/zero) result, and the external library calls that the authorizer
merely consumes (`name.Parse`, `name.Format` from `chain/crypto/x509/name`,
`json.Unmarshal` from the standard library, `proto.Unmarshal` of a
`GrantList`, and the raft store's stale `Get`) are passed in as explicit
function parameters, so every theorem quantifies over their behaviour.
A Go `panic` is modelled as `Except.error`; Go `error` returns become
`Except`/an error constructor.
-/

/- ------------------------------------------------------------------
Data model.
`pkix.Name` (crypto/x509/pkix): only the fields the matcher reads.
------------------------------------------------------------------- -/

structure PkixName where
  commonName : String := ""
  serialNumber : String := ""
  country : List String := []
  organization : List String := []
  organizationalUnit : List String := []
  locality : List String := []
  province : List String := []
  streetAddress : List String := []
  postalCode : List String := []
deriving DecidableEq, Repr

/-- A `Grant` record (proto message): guard type tag, raw guard payload
bytes (modelled as a `String`), the policy it confers, creation time. -/
structure Grant where
  guardType : String
  guardData : String := ""
  policy : String
  createdAt : String := ""
deriving DecidableEq, Repr

/-- The authenticated facts `authn` exposes on the request context:
`authn.Token ctx`, the subjects of `authn.X509Certs ctx`, and
`authn.Localhost ctx`. -/
structure AuthnContext where
  token : String := ""
  x509Certs : List PkixName := []
  localhost : Bool := false
deriving DecidableEq, Repr

/- ------------------------------------------------------------------
Guard matching (`matchesString`, `matchesStrings`, `matchesX509`).
------------------------------------------------------------------- -/

/-- `matchesString(pat, x)`: `pat == "" || pat == x`. -/
def matchesString (pat x : String) : Bool :=
  pat == "" || pat == x

/-- `matchesStrings(pat, x)`: false when `len(x) < len(pat)`, else the
loop `for i, s := range pat { if s != x[i] { return false } }`. -/
def matchesStrings (pat x : List String) : Bool :=
  if x.length < pat.length then false
  else (List.zip pat x).all fun p => p.1 == p.2

/-- `matchesX509(pat, x)`: conjunction over the nine subject fields, in
the source's order. -/
def matchesX509 (pat x : PkixName) : Bool :=
  matchesString pat.commonName x.commonName &&
  matchesStrings pat.country x.country &&
  matchesStrings pat.organization x.organization &&
  matchesStrings pat.organizationalUnit x.organizationalUnit &&
  matchesStrings pat.locality x.locality &&
  matchesStrings pat.province x.province &&
  matchesStrings pat.streetAddress x.streetAddress &&
  matchesStrings pat.postalCode x.postalCode &&
  matchesString pat.serialNumber x.serialNumber

/-- `accessTokenGuardData(grant)`: `json.Unmarshal` of the payload into
`struct{ ID string }`, ignoring the error, returning `""` on failure.
The JSON decoder is the parameter `ji` (`none` = unmarshal failure or a
payload without an `id` field left at its zero value). -/
def accessTokenGuardData (ji : String → Option String) (grant : Grant) : String :=
  (ji grant.guardData).getD ""

/-- One iteration of the `switch g.GuardType` in `authorized`: does the
single grant `g` match the context?  `np` models `name.Parse`
(`none` = parse error, which the source `break`s on), `ji` models the
JSON decode inside `accessTokenGuardData`. -/
def grantMatches (np : String → Option PkixName) (ji : String → Option String)
    (ctx : AuthnContext) (g : Grant) : Bool :=
  if g.guardType == "access_token" then
    accessTokenGuardData ji g == ctx.token
  else if g.guardType == "x509" then
    match np g.guardData with
    | none => false
    | some pattern => ctx.x509Certs.any fun cert => matchesX509 pattern cert
  else if g.guardType == "localhost" then
    ctx.localhost
  else if g.guardType == "any" then
    true
  else
    false

/-- `authorized(ctx, grants)`: the loop over `grants` returning `true`
on the first matching grant, `false` once all are exhausted. -/
def authorized (np : String → Option PkixName) (ji : String → Option String)
    (ctx : AuthnContext) (grants : List Grant) : Bool :=
  grants.any (grantMatches np ji ctx)

/- ------------------------------------------------------------------
The Authorizer.
------------------------------------------------------------------- -/

/-- The three distinct error values `Authorize` can return:
`errors.New("missing policy on this route")`, a wrapped store error,
and `ErrNotAuthorized`. -/
inductive AuthzError where
  | missingPolicy
  | storeUnavailable (msg : String)
  | notAuthorized
deriving DecidableEq, Repr

/-- The `Authorizer` struct.  `policyByRoute` is a Go map
(`none` = key absent, i.e. a `nil` slice); `extraGrants` is a Go map
from policy to grant slice (absent key = `nil` = `[]`); `raftPfx` is
the field `raftPrefix`, the key namespace used against the raft store. -/
structure Authorizer where
  raftPfx : String
  policyByRoute : String → Option (List String)
  extraGrants : String → List Grant

/-- `builtinGrants`: one unconditional public grant. -/
def builtinGrants : List Grant :=
  [{ guardType := "any", policy := "public" }]

/-- Append a grant at a policy key of the `extraGrants` map
(`a.extraGrants[p] = append(a.extraGrants[p], g)`). -/
def appendExtra (m : String → List Grant) (p : String) (g : Grant) :
    String → List Grant :=
  fun q => if q == p then m q ++ [g] else m q

/-- `NewAuthorizer(rdb, prefix, policyMap)`: starts with an empty
`extraGrants` map and appends each builtin grant under its policy. -/
def NewAuthorizer (pfx : String) (policyMap : String → Option (List String)) :
    Authorizer :=
  builtinGrants.foldl
    (fun a g => { a with extraGrants := appendExtra a.extraGrants g.policy g })
    { raftPfx := pfx, policyByRoute := policyMap, extraGrants := fun _ => [] }

/-- `GrantInternal(subj)`: format the subject via `name.Format`
(parameter `nf`; the source calls `panic(err)` on failure, modelled as
`Except.error`), then append an `x509` grant under policy `"internal"`
to the process-local map.  `now` stands for
`time.Now().UTC().Format(time.RFC3339)`. -/
def GrantInternal (nf : PkixName → Except String String) (a : Authorizer)
    (subj : PkixName) (now : String) : Except String Authorizer :=
  match nf subj with
  | .error e => .error e
  | .ok data =>
    .ok { a with
          extraGrants := appendExtra a.extraGrants "internal"
            { policy := "internal", guardType := "x509", guardData := data,
              createdAt := now } }

/-- `strings.TrimRight(s, "/")`: remove every trailing slash. -/
def trimRightSlashes (s : String) : String :=
  String.mk ((s.toList.reverse.dropWhile fun c => c == '/').reverse)

/-- `grantsByPolicies(policies)`: for each policy, append the
process-local/builtin grants from `extraGrants`, then read
`raftDB.Stale().Get(raftPrefix + p)` (parameter `store`; `none` = `nil`
bytes, skipped); non-nil bytes are `proto.Unmarshal`ed into a
`GrantList` (parameter `pu`; an error aborts with that error), whose
grants are appended. -/
def grantsByPolicies (pu : String → Except String (List Grant))
    (store : String → Option String) (a : Authorizer) :
    List String → Except String (List Grant)
  | [] => .ok []
  | p :: ps =>
    match store (a.raftPfx ++ p) with
    | none => (grantsByPolicies pu store a ps).map fun rest =>
        a.extraGrants p ++ rest
    | some data =>
      match pu data with
      | .error e => .error e
      | .ok gs => (grantsByPolicies pu store a ps).map fun rest =>
          a.extraGrants p ++ gs ++ rest

/-- `Authorize(req)`: look up the policies for the trailing-slash
trimmed `req.RequestURI`; `nil` or empty means the missing-policy
error; then fetch the merged grants (wrapping a store error); then
succeed iff `authorized` holds, else `ErrNotAuthorized`. -/
def Authorize (pu : String → Except String (List Grant))
    (store : String → Option String) (np : String → Option PkixName)
    (ji : String → Option String) (a : Authorizer) (requestURI : String)
    (ctx : AuthnContext) : Except AuthzError Unit :=
  match a.policyByRoute (trimRightSlashes requestURI) with
  | none => .error .missingPolicy
  | some policies =>
    if policies.length = 0 then .error .missingPolicy
    else
      match grantsByPolicies pu store a policies with
      | .error e => .error (.storeUnavailable e)
      | .ok grants =>
        if authorized np ji ctx grants then .ok ()
        else .error .notAuthorized

/- ------------------------------------------------------------------
Concrete instances of the external decoders, used to evaluate the
definitions on closed inputs.
------------------------------------------------------------------- -/

/-- A concrete fragment of `json.Unmarshal` into `struct{ ID string }`:
the payload `\x7b"id":""\x7d` decodes with an empty `ID`; any other
payload here (e.g. the bytes `not json`) fails to unmarshal. -/
def jiDemo : String → Option String
  | "\x7b\"id\":\"\"\x7d" => some ""
  | "\x7b\"id\":\"tok123\"\x7d" => some "tok123"
  | _ => none

/-- A concrete fragment of `name.Parse`: the pattern string `O=Acme`
parses to a name with organization `["Acme"]`, the empty string parses
to the all-empty name, anything else fails to parse. -/
def npDemo : String → Option PkixName
  | "O=Acme" => some { organization := ["Acme"] }
  | "" => some {}
  | _ => none

/- ------------------------------------------------------------------
Helper lemmas about the matchers.
------------------------------------------------------------------- -/

theorem matchesString_iff (pat x : String) :
    matchesString pat x = true ↔ pat = "" ∨ pat = x := by
  simp [matchesString]

theorem matchesStrings_nil (x : List String) : matchesStrings [] x = true := by
  simp [matchesStrings]

theorem matchesStrings_cons (p y : String) (ps ys : List String) :
    matchesStrings (p :: ps) (y :: ys) = ((p == y) && matchesStrings ps ys) := by
  simp only [matchesStrings, List.zip_cons_cons, List.all_cons, List.length_cons,
    Nat.add_lt_add_iff_right]
  by_cases h : ys.length < ps.length <;> simp [h]

theorem matchesStrings_iff (pat x : List String) :
    matchesStrings pat x = true ↔
      pat.length ≤ x.length ∧ x.take pat.length = pat := by
  induction pat generalizing x with
  | nil => simp [matchesStrings]
  | cons p ps ih =>
    cases x with
    | nil => simp [matchesStrings]
    | cons y ys =>
      rw [matchesStrings_cons]
      simp only [Bool.and_eq_true, beq_iff_eq, ih, List.length_cons,
        Nat.add_le_add_iff_right, List.take_succ_cons, List.cons.injEq]
      tauto

theorem matchesStrings_iff_empty_or (pat x : List String) :
    matchesStrings pat x = true ↔
      pat = [] ∨ (pat.length ≤ x.length ∧ x.take pat.length = pat) := by
  rw [matchesStrings_iff]
  constructor
  · exact fun h => Or.inr h
  · rintro (rfl | h)
    · simp
    · exact h

theorem matchesX509_iff (pat x : PkixName) :
    matchesX509 pat x = true ↔
      (pat.commonName = "" ∨ pat.commonName = x.commonName) ∧
      (pat.country = [] ∨
        (pat.country.length ≤ x.country.length ∧
         x.country.take pat.country.length = pat.country)) ∧
      (pat.organization = [] ∨
        (pat.organization.length ≤ x.organization.length ∧
         x.organization.take pat.organization.length = pat.organization)) ∧
      (pat.organizationalUnit = [] ∨
        (pat.organizationalUnit.length ≤ x.organizationalUnit.length ∧
         x.organizationalUnit.take pat.organizationalUnit.length =
           pat.organizationalUnit)) ∧
      (pat.locality = [] ∨
        (pat.locality.length ≤ x.locality.length ∧
         x.locality.take pat.locality.length = pat.locality)) ∧
      (pat.province = [] ∨
        (pat.province.length ≤ x.province.length ∧
         x.province.take pat.province.length = pat.province)) ∧
      (pat.streetAddress = [] ∨
        (pat.streetAddress.length ≤ x.streetAddress.length ∧
         x.streetAddress.take pat.streetAddress.length = pat.streetAddress)) ∧
      (pat.postalCode = [] ∨
        (pat.postalCode.length ≤ x.postalCode.length ∧
         x.postalCode.take pat.postalCode.length = pat.postalCode)) ∧
      (pat.serialNumber = "" ∨ pat.serialNumber = x.serialNumber) := by
  simp only [matchesX509, Bool.and_eq_true, matchesString_iff,
    matchesStrings_iff_empty_or, and_assoc]

theorem grantMatches_accessToken (np : String → Option PkixName)
    (ji : String → Option String) (ctx : AuthnContext) (g : Grant)
    (hT : g.guardType = "access_token") :
    grantMatches np ji ctx g = ((ji g.guardData).getD "" == ctx.token) := by
  simp [grantMatches, hT, accessTokenGuardData]

theorem grantMatches_x509 (np : String → Option PkixName)
    (ji : String → Option String) (ctx : AuthnContext) (g : Grant)
    (hT : g.guardType = "x509") :
    grantMatches np ji ctx g =
      match np g.guardData with
      | none => false
      | some pattern => ctx.x509Certs.any fun cert => matchesX509 pattern cert := by
  simp [grantMatches, hT]

theorem authorized_cons (np : String → Option PkixName)
    (ji : String → Option String) (ctx : AuthnContext) (g : Grant)
    (rest : List Grant) :
    authorized np ji ctx (g :: rest) =
      (grantMatches np ji ctx g || authorized np ji ctx rest) := by
  simp [authorized]

theorem authorized_iff_exists (np : String → Option PkixName)
    (ji : String → Option String) (ctx : AuthnContext) (grants : List Grant) :
    authorized np ji ctx grants = true ↔
      ∃ g ∈ grants, grantMatches np ji ctx g = true := by
  simp [authorized, List.any_eq_true]

theorem matchesX509_empty_pattern (x : PkixName) : matchesX509 {} x = true := by
  simp [matchesX509, matchesString, matchesStrings]

/-- Claim C2: an `x509` guard whose pattern string parses to `P` matches
the context iff at least one presented certificate subject `S` satisfies
all of: `P.commonName` empty or equal to `S.commonName`; `P.serialNumber`
empty or equal to `S.serialNumber`; and each multi-valued field of `P`
empty or an in-order prefix of `S`'s corresponding field (the subject's
field is at least as long and its first `len(P)` elements equal `P`'s in
order; extra trailing subject elements permitted, reordering not). -/
theorem x509_guard_match_iff (np : String → Option PkixName)
    (ji : String → Option String) (ctx : AuthnContext) (g : Grant)
    (P : PkixName) (hT : g.guardType = "x509")
    (hP : np g.guardData = some P) :
    grantMatches np ji ctx g = true ↔
      ∃ S ∈ ctx.x509Certs,
        (P.commonName = "" ∨ P.commonName = S.commonName) ∧
        (P.country = [] ∨
          (P.country.length ≤ S.country.length ∧
           S.country.take P.country.length = P.country)) ∧
        (P.organization = [] ∨
          (P.organization.length ≤ S.organization.length ∧
           S.organization.take P.organization.length = P.organization)) ∧
        (P.organizationalUnit = [] ∨
          (P.organizationalUnit.length ≤ S.organizationalUnit.length ∧
           S.organizationalUnit.take P.organizationalUnit.length =
             P.organizationalUnit)) ∧
        (P.locality = [] ∨
          (P.locality.length ≤ S.locality.length ∧
           S.locality.take P.locality.length = P.locality)) ∧
        (P.province = [] ∨
          (P.province.length ≤ S.province.length ∧
           S.province.take P.province.length = P.province)) ∧
        (P.streetAddress = [] ∨
          (P.streetAddress.length ≤ S.streetAddress.length ∧
           S.streetAddress.take P.streetAddress.length = P.streetAddress)) ∧
        (P.postalCode = [] ∨
          (P.postalCode.length ≤ S.postalCode.length ∧
           S.postalCode.take P.postalCode.length = P.postalCode)) ∧
        (P.serialNumber = "" ∨ P.serialNumber = S.serialNumber) := by
  rw [grantMatches_x509 np ji ctx g hT, hP]
  simp only [List.any_eq_true, matchesX509_iff]

/-- Claim C2 witness: the guard `\x7borganization: ["Acme"]\x7d` matches a
subject with organization `["Acme", "Eng"]`, via the claim theorem. -/
theorem x509_guard_match_iff_witness :
    grantMatches npDemo jiDemo
      { x509Certs := [{ organization := ["Acme", "Eng"] }] }
      { guardType := "x509", guardData := "O=Acme", policy := "network" } = true :=
  (x509_guard_match_iff npDemo jiDemo
      { x509Certs := [{ organization := ["Acme", "Eng"] }] }
      { guardType := "x509", guardData := "O=Acme", policy := "network" }
      { organization := ["Acme"] } rfl rfl).mpr (by decide)

/-- Claim C9: an `x509` guard matches no context presenting zero
certificate subjects — even one whose pattern has every field empty —
and an `x509` guard whose pattern parses to the all-empty name matches
every context presenting at least one certificate subject. -/
theorem x509_zero_certs_and_all_empty_pattern (np : String → Option PkixName)
    (ji : String → Option String) (ctx : AuthnContext) (g : Grant)
    (hT : g.guardType = "x509") :
    (ctx.x509Certs = [] → grantMatches np ji ctx g = false) ∧
    (np g.guardData = some {} → ctx.x509Certs ≠ [] →
      grantMatches np ji ctx g = true) := by
  constructor
  · intro hc
    rw [grantMatches_x509 np ji ctx g hT]
    cases np g.guardData <;> simp [hc]
  · intro hp hc
    rw [grantMatches_x509 np ji ctx g hT, hp]
    cases hx : ctx.x509Certs with
    | nil => exact absurd hx hc
    | cons c cs => simp [matchesX509_empty_pattern]

/-- Claim C9 witness: with no presented subjects the all-empty-pattern
guard does not match; with one presented subject it does. -/
theorem x509_zero_certs_and_all_empty_pattern_witness :
    grantMatches npDemo jiDemo {}
      { guardType := "x509", guardData := "", policy := "internal" } = false ∧
    grantMatches npDemo jiDemo { x509Certs := [{ commonName := "peer" }] }
      { guardType := "x509", guardData := "", policy := "internal" } = true :=
  ⟨(x509_zero_certs_and_all_empty_pattern npDemo jiDemo {}
      { guardType := "x509", guardData := "", policy := "internal" } rfl).1 rfl,
   (x509_zero_certs_and_all_empty_pattern npDemo jiDemo
      { x509Certs := [{ commonName := "peer" }] }
      { guardType := "x509", guardData := "", policy := "internal" } rfl).2
      rfl (by decide)⟩

/-- Claim C10: a grant whose guardType tag is none of the four known
tags contributes a non-match for every context, and evaluation over a
grant list proceeds past it to the remaining grants. -/
theorem unknown_guardType_no_match (np : String → Option PkixName)
    (ji : String → Option String) (ctx : AuthnContext) (g : Grant)
    (rest : List Grant)
    (h1 : g.guardType ≠ "access_token") (h2 : g.guardType ≠ "x509")
    (h3 : g.guardType ≠ "localhost") (h4 : g.guardType ≠ "any") :
    grantMatches np ji ctx g = false ∧
    authorized np ji ctx (g :: rest) = authorized np ji ctx rest := by
  have hm : grantMatches np ji ctx g = false := by
    simp [grantMatches, h1, h2, h3, h4]
  exact ⟨hm, by simp [authorized_cons, hm]⟩

/-- Claim C10 witness: a grant tagged `bogus` never matches, and a later
`any` grant still decides the list. -/
theorem unknown_guardType_no_match_witness :
    grantMatches npDemo jiDemo {} { guardType := "bogus", policy := "p" } = false ∧
    authorized npDemo jiDemo {}
      [{ guardType := "bogus", policy := "p" },
       { guardType := "any", policy := "public" }] =
      authorized npDemo jiDemo {} [{ guardType := "any", policy := "public" }] :=
  unknown_guardType_no_match npDemo jiDemo {} { guardType := "bogus", policy := "p" }
    [{ guardType := "any", policy := "public" }]
    (by decide) (by decide) (by decide) (by decide)

/-- Claim C3 counterexample: with the presented token absent (empty
string), a stored access-token guard whose payload decodes to the empty
id DOES match — `authorized` grants on it — contradicting the claim
that an absent token never satisfies an access-token guard. -/
theorem accessToken_empty_matches_empty_counterexample :
    authorized npDemo jiDemo { token := "" }
      [{ guardType := "access_token", guardData := "\x7b\"id\":\"\"\x7d",
         policy := "client-readwrite" }] = true := by decide

/-- Claim C3 amended: an access-token guard matches iff its decoded id
(the empty string when the payload fails to unmarshal or has no id)
equals the presented token exactly and case-sensitively — including the
case where both the id and the presented token are empty. -/
theorem accessToken_match_iff_exact (np : String → Option PkixName)
    (ji : String → Option String) (ctx : AuthnContext) (g : Grant)
    (hT : g.guardType = "access_token") :
    grantMatches np ji ctx g = true ↔ (ji g.guardData).getD "" = ctx.token := by
  rw [grantMatches_accessToken np ji ctx g hT]
  simp

/-- Claim C3 amended witness: a guard on id `tok123` matches the context
presenting token `tok123`. -/
theorem accessToken_match_iff_exact_witness :
    grantMatches npDemo jiDemo { token := "tok123" }
      { guardType := "access_token", guardData := "\x7b\"id\":\"tok123\"\x7d",
        policy := "client-readwrite" } = true :=
  (accessToken_match_iff_exact npDemo jiDemo { token := "tok123" }
      { guardType := "access_token", guardData := "\x7b\"id\":\"tok123\"\x7d",
        policy := "client-readwrite" } rfl).mpr rfl

/-- Claim C5 counterexample: a grant list whose only grant is an
access-token grant with a payload that fails to unmarshal should, per
the claim, contribute only a non-match; but against a context with an
absent token the malformed grant matches (its decoded id defaults to
the empty string), so `authorized` returns true. -/
theorem malformed_accessToken_grants_counterexample :
    authorized npDemo jiDemo { token := "" }
      [{ guardType := "access_token", guardData := "not json",
         policy := "client-readwrite" }] = true := by decide

/-- Claim C5 amended: per-grant corruption never raises an error —
an x509 grant whose pattern fails to parse contributes a non-match and
evaluation proceeds to the remaining grants (so a later matching grant
still yields success), while an access-token grant whose payload fails
to unmarshal decodes to the empty id and therefore matches exactly the
contexts whose presented token is empty: it is skipped as a non-match
whenever a token is actually presented. -/
theorem malformed_guard_evaluation (np : String → Option PkixName)
    (ji : String → Option String) (ctx : AuthnContext) (gX gTok : Grant)
    (rest : List Grant)
    (hx : gX.guardType = "x509") (hpx : np gX.guardData = none)
    (ht : gTok.guardType = "access_token") (hpt : ji gTok.guardData = none) :
    (grantMatches np ji ctx gX = false ∧
     authorized np ji ctx (gX :: rest) = authorized np ji ctx rest) ∧
    (grantMatches np ji ctx gTok = ("" == ctx.token) ∧
     (ctx.token ≠ "" →
       authorized np ji ctx (gTok :: rest) = authorized np ji ctx rest)) := by
  have hmx : grantMatches np ji ctx gX = false := by
    rw [grantMatches_x509 np ji ctx gX hx, hpx]
  have hmt : grantMatches np ji ctx gTok = ("" == ctx.token) := by
    rw [grantMatches_accessToken np ji ctx gTok ht, hpt]
    rfl
  refine ⟨⟨hmx, by simp [authorized_cons, hmx]⟩, hmt, fun hne => ?_⟩
  have hb : ("" == ctx.token) = false := beq_eq_false_iff_ne.mpr (Ne.symm hne)
  simp [authorized_cons, hmt, hb]

/-- Claim C5 amended witness: with token `tok123` presented, an
unparsable x509 grant is skipped and a later `any` grant still decides
the list. -/
theorem malformed_guard_evaluation_witness :
    authorized npDemo jiDemo { token := "tok123" }
      [{ guardType := "x509", guardData := "garbage", policy := "p" },
       { guardType := "any", policy := "public" }] =
      authorized npDemo jiDemo { token := "tok123" }
        [{ guardType := "any", policy := "public" }] :=
  (malformed_guard_evaluation npDemo jiDemo { token := "tok123" }
     { guardType := "x509", guardData := "garbage", policy := "p" }
     { guardType := "access_token", guardData := "not json", policy := "p" }
     [{ guardType := "any", policy := "public" }] rfl rfl rfl rfl).1.2

/-- Claim C4: when the trailing-slash-trimmed route key is absent from
the policy map, or maps to an empty policy list, `Authorize` returns
the missing-policy error — a value distinct from the not-authorized
error — for every credential context, store content and decoder; the
grant stores are not consulted (the result is the same for every
`store` and `pu`). -/
theorem Authorize_missingPolicy (pu : String → Except String (List Grant))
    (store : String → Option String) (np : String → Option PkixName)
    (ji : String → Option String) (a : Authorizer) (uri : String)
    (ctx : AuthnContext)
    (h : a.policyByRoute (trimRightSlashes uri) = none ∨
         a.policyByRoute (trimRightSlashes uri) = some []) :
    Authorize pu store np ji a uri ctx = .error .missingPolicy ∧
    AuthzError.missingPolicy ≠ AuthzError.notAuthorized := by
  refine ⟨?_, by decide⟩
  unfold Authorize
  rcases h with h | h <;> simp [h]

/-- Claim C4 witness: an unmapped route (with a trailing slash) yields
the missing-policy error even though the store holds a grant that the
presented context would match under an unrelated policy. -/
theorem Authorize_missingPolicy_witness :
    Authorize (fun _ => .ok [{ guardType := "any", policy := "unrelated" }])
      (fun _ => some "gl") npDemo jiDemo
      ⟨"", (fun _ => none), (fun _ => [])⟩ "/status/" { token := "tok123" } =
      .error .missingPolicy ∧
    AuthzError.missingPolicy ≠ AuthzError.notAuthorized :=
  Authorize_missingPolicy (fun _ => .ok [{ guardType := "any", policy := "unrelated" }])
    (fun _ => some "gl") npDemo jiDemo ⟨"", (fun _ => none), (fun _ => [])⟩
    "/status/" { token := "tok123" } (Or.inl rfl)

/-- Claim C6: when formatting the subject pattern fails, process-local
registration propagates that failure immediately to the caller (the
source panics, modelled as `Except.error`) — it is not swallowed — and
no updated authorizer is produced, so no grant is added to the
process-local set. -/
theorem GrantInternal_failure_loud (nf : PkixName → Except String String)
    (a : Authorizer) (subj : PkixName) (now : String) (e : String)
    (h : nf subj = .error e) :
    GrantInternal nf a subj now = .error e ∧
    ∀ a', GrantInternal nf a subj now ≠ .ok a' := by
  unfold GrantInternal
  rw [h]
  exact ⟨rfl, fun a' hc => by cases hc⟩

/-- Claim C6 witness: a subject the formatter rejects makes registration
fail with that very error. -/
theorem GrantInternal_failure_loud_witness :
    GrantInternal (fun _ => .error "invalid name")
      ⟨"", (fun _ => none), (fun _ => [])⟩ {} "t" = .error "invalid name" :=
  (GrantInternal_failure_loud (fun _ => .error "invalid name")
    ⟨"", (fun _ => none), (fun _ => [])⟩ {} "t" "invalid name" rfl).1

theorem except_map_error_iff {α β : Type} (f : α → β) (x : Except String α) :
    (∃ e, Except.map f x = .error e) ↔ (∃ e, x = .error e) := by
  cases x <;> simp [Except.map]

/-- Claim C7: fetching merged grants fails iff the stored bytes for some
requested policy are present and fail to decode as a `GrantList`; a
policy whose stored entry is absent, or decodes to the empty grant
list, contributes no distributed grants and causes no error by itself. -/
theorem grantsByPolicies_error_iff (pu : String → Except String (List Grant))
    (store : String → Option String) (a : Authorizer) (policies : List String) :
    ((∃ e, grantsByPolicies pu store a policies = .error e) ↔
      ∃ p ∈ policies, ∃ data, store (a.raftPfx ++ p) = some data ∧
        ∃ e, pu data = .error e) ∧
    (∀ p ps, policies = p :: ps →
      (store (a.raftPfx ++ p) = none ∨
        ∃ data, store (a.raftPfx ++ p) = some data ∧ pu data = .ok []) →
      grantsByPolicies pu store a policies =
        Except.map (fun rest => a.extraGrants p ++ rest)
          (grantsByPolicies pu store a ps)) := by
  constructor
  · induction policies with
    | nil => simp [grantsByPolicies]
    | cons p ps ih =>
      cases hs : store (a.raftPfx ++ p) with
      | none =>
        simp only [grantsByPolicies, hs]
        rw [except_map_error_iff, ih]
        constructor
        · rintro ⟨q, hq, hP⟩
          exact ⟨q, List.mem_cons_of_mem p hq, hP⟩
        · rintro ⟨q, hq, hP⟩
          rcases List.mem_cons.mp hq with rfl | hq'
          · rcases hP with ⟨data, hdata, _⟩
            rw [hs] at hdata
            cases hdata
          · exact ⟨q, hq', hP⟩
      | some data =>
        cases hd : pu data with
        | error e =>
          simp only [grantsByPolicies, hs, hd]
          constructor
          · intro _
            exact ⟨p, List.mem_cons_self p ps, data, hs, e, hd⟩
          · intro _
            exact ⟨e, rfl⟩
        | ok gs =>
          simp only [grantsByPolicies, hs, hd]
          rw [except_map_error_iff, ih]
          constructor
          · rintro ⟨q, hq, hP⟩
            exact ⟨q, List.mem_cons_of_mem p hq, hP⟩
          · rintro ⟨q, hq, hP⟩
            rcases List.mem_cons.mp hq with rfl | hq'
            · rcases hP with ⟨data', hdata', e', he'⟩
              rw [hs] at hdata'
              cases hdata'
              rw [hd] at he'
              cases he'
            · exact ⟨q, hq', hP⟩
  · rintro p ps rfl h
    rcases h with hs | ⟨data, hs, hd⟩
    · simp only [grantsByPolicies, hs]
    · simp only [grantsByPolicies, hs, hd]
      cases grantsByPolicies pu store a ps <;> simp [Except.map]

theorem grantsByPolicies_congr (pu : String → Except String (List Grant))
    (store : String → Option String) (a b : Authorizer)
    (hpfx : a.raftPfx = b.raftPfx) (ps : List String)
    (hext : ∀ p ∈ ps, a.extraGrants p = b.extraGrants p) :
    grantsByPolicies pu store a ps = grantsByPolicies pu store b ps := by
  induction ps with
  | nil => rfl
  | cons q qs ih =>
    have hq := hext q (List.mem_cons_self q qs)
    have hrec := ih fun p hp => hext p (List.mem_cons_of_mem q hp)
    simp only [grantsByPolicies, hpfx, hq, hrec]

theorem mem_grantsByPolicies_single (pu : String → Except String (List Grant))
    (store : String → Option String) (a : Authorizer) (p : String)
    (gs : List Grant) (h : grantsByPolicies pu store a [p] = .ok gs) :
    ∀ g ∈ a.extraGrants p, g ∈ gs := by
  intro g hg
  cases hs : store (a.raftPfx ++ p) with
  | none =>
    simp only [grantsByPolicies, hs, Except.map, Except.ok.injEq] at h
    subst h
    simp [hg]
  | some data =>
    cases hd : pu data with
    | error e =>
      simp only [grantsByPolicies, hs, hd] at h
      simp at h
    | ok gs2 =>
      simp only [grantsByPolicies, hs, hd, Except.map, Except.ok.injEq] at h
      subst h
      simp [hg]

/-- Claim C8: a successful process-local registration appends the new
x509 grant under the reserved `internal` policy, so the grant is part of
every subsequent in-process fetch for `internal`; the replicated store
is never written (the same untouched `store` serves both sides) and the
grants of every other policy — hence every fetch avoiding `internal` —
are unchanged. -/
theorem GrantInternal_visible_and_frame (nf : PkixName → Except String String)
    (pu : String → Except String (List Grant)) (store : String → Option String)
    (a : Authorizer) (subj : PkixName) (now data : String) (a' : Authorizer)
    (hf : nf subj = .ok data)
    (h : GrantInternal nf a subj now = .ok a') :
    (a'.extraGrants "internal" = a.extraGrants "internal" ++
      [{ policy := "internal", guardType := "x509", guardData := data,
         createdAt := now }]) ∧
    (∀ gs, grantsByPolicies pu store a' ["internal"] = .ok gs →
      ({ policy := "internal", guardType := "x509", guardData := data,
         createdAt := now } : Grant) ∈ gs) ∧
    (∀ p, p ≠ "internal" → a'.extraGrants p = a.extraGrants p) ∧
    (∀ ps, "internal" ∉ ps →
      grantsByPolicies pu store a' ps = grantsByPolicies pu store a ps) := by
  unfold GrantInternal at h
  rw [hf] at h
  injection h with h
  subst h
  have hI : ({ a with extraGrants := appendExtra a.extraGrants "internal" ⟨"x509", data, "internal", now⟩ } :
        Authorizer).extraGrants "internal" =
      a.extraGrants "internal" ++ [⟨"x509", data, "internal", now⟩] := by
    simp [appendExtra]
  have hother : ∀ p, p ≠ "internal" →
      ({ a with extraGrants := appendExtra a.extraGrants "internal" ⟨"x509", data, "internal", now⟩ } :
          Authorizer).extraGrants p = a.extraGrants p := by
    intro p hp
    simp [appendExtra, hp]
  refine ⟨hI, ?_, hother, ?_⟩
  · intro gs hgs
    refine mem_grantsByPolicies_single pu store _ "internal" gs hgs _ ?_
    rw [hI]
    simp
  · intro ps hps
    exact grantsByPolicies_congr pu store
      { a with extraGrants := appendExtra a.extraGrants "internal" ⟨"x509", data, "internal", now⟩ }
      a rfl ps fun p hp => hother p fun hh => hps (hh ▸ hp)

/-- Claim C8 witness: registering a successfully formatted subject on a
fresh authorizer appends exactly the new grant to its `internal` list,
via the claim theorem's first conjunct. -/
theorem GrantInternal_visible_and_frame_witness :
    (({ raftPfx := "", policyByRoute := fun _ => none,
        extraGrants := appendExtra (fun _ => []) "internal"
          { policy := "internal", guardType := "x509", guardData := "CN=peer",
            createdAt := "t" } } : Authorizer).extraGrants "internal" =
      ({ raftPfx := "", policyByRoute := fun _ => none,
         extraGrants := fun _ => [] } : Authorizer).extraGrants "internal" ++
        [{ policy := "internal", guardType := "x509", guardData := "CN=peer",
           createdAt := "t" }]) :=
  (GrantInternal_visible_and_frame (fun _ => .ok "CN=peer") (fun _ => .ok [])
    (fun _ => none)
    { raftPfx := "", policyByRoute := fun _ => none, extraGrants := fun _ => [] }
    {} "t" "CN=peer"
    { raftPfx := "", policyByRoute := fun _ => none,
      extraGrants := appendExtra (fun _ => []) "internal"
        { policy := "internal", guardType := "x509", guardData := "CN=peer",
          createdAt := "t" } }
    rfl rfl).1

/-- Claim C1: when the route resolves to a nonempty policy list and the
merged grant fetch succeeds with list `grants` (the builtin,
process-local and distributed grants for those policies), `Authorize`
succeeds iff some grant in the merged list matches the context, and
fails with the not-authorized error iff no grant matches — a
short-circuit OR over the grants with no precedence among grants or
sources. -/
theorem Authorize_iff_matching_grant (pu : String → Except String (List Grant))
    (store : String → Option String) (np : String → Option PkixName)
    (ji : String → Option String) (a : Authorizer) (uri : String)
    (ctx : AuthnContext) (policies : List String) (grants : List Grant)
    (hpol : a.policyByRoute (trimRightSlashes uri) = some policies)
    (hne : policies ≠ [])
    (hg : grantsByPolicies pu store a policies = .ok grants) :
    (Authorize pu store np ji a uri ctx = .ok () ↔
      ∃ g ∈ grants, grantMatches np ji ctx g = true) ∧
    (Authorize pu store np ji a uri ctx = .error .notAuthorized ↔
      ¬ ∃ g ∈ grants, grantMatches np ji ctx g = true) := by
  have hlen : ¬ (policies.length = 0) := by
    simpa [List.length_eq_zero] using hne
  unfold Authorize
  rw [hpol]
  simp only [hlen, if_false, hg]
  rw [← authorized_iff_exists np ji ctx grants]
  by_cases hA : authorized np ji ctx grants = true
  · simp [hA]
  · simp [hA]

/-- Claim C1 witness: scenario 1 of the spec — route `/accounts`
requires `client-readwrite`, the merged grants hold one access-token
grant on id `tok123`, and the context presenting token `tok123` is
permitted, via the claim theorem's success direction. -/
theorem Authorize_iff_matching_grant_witness :
    Authorize (fun _ => .ok []) (fun _ => none) npDemo jiDemo
      { raftPfx := "",
        policyByRoute := fun r =>
          if r == "/accounts" then some ["client-readwrite"] else none,
        extraGrants := fun p =>
          if p == "client-readwrite" then
            [{ guardType := "access_token",
               guardData := "\x7b\"id\":\"tok123\"\x7d",
               policy := "client-readwrite" }]
          else [] }
      "/accounts" { token := "tok123" } = .ok () :=
  (Authorize_iff_matching_grant (fun _ => .ok []) (fun _ => none) npDemo jiDemo
    { raftPfx := "",
      policyByRoute := fun r =>
        if r == "/accounts" then some ["client-readwrite"] else none,
      extraGrants := fun p =>
        if p == "client-readwrite" then
          [{ guardType := "access_token",
             guardData := "\x7b\"id\":\"tok123\"\x7d",
             policy := "client-readwrite" }]
        else [] }
    "/accounts" { token := "tok123" } ["client-readwrite"]
    [{ guardType := "access_token", guardData := "\x7b\"id\":\"tok123\"\x7d",
       policy := "client-readwrite" }]
    rfl (by decide) rfl).1.mpr
    ⟨{ guardType := "access_token", guardData := "\x7b\"id\":\"tok123\"\x7d",
       policy := "client-readwrite" }, by decide, by decide⟩
